import Mathlib

/-!
Shallow embedding of the isometric block-sprite compositing engine of
`textures.py` (Minecraft-Overviewer).  Images are modelled as pixel grids
(a size together with a total pixel function); the repository's own
functions (`transform_image`, `transform_image_side`, `transform_image_slope`,
`_build_block`, `_build_full_block`, `_build_blockimages`, `load_water`,
`generate_special_texture`, `tintTexture`, `special_blocks`, `special_map`,
`specialblockmap`) are translated from the source.  Library primitives
(PIL resize/transform/rotate/enhance/draw) are modelled at their interface
level, and `composite.alpha_over` — repository code that is not part of the
given sources — is modelled from the spec.
-/

set_option autoImplicit false

/-- An RGBA pixel; channel values are natural numbers (0..255 in practice). -/
structure Pixel where
  r : Nat
  g : Nat
  b : Nat
  a : Nat
deriving DecidableEq

/-- An image: a width, a height and a total pixel function.  Models a PIL
RGBA image; band ("L"-mode) images are represented with the band value
replicated across all four channels. -/
structure Img where
  w : Nat
  h : Nat
  px : Nat → Nat → Pixel

/-- The transparent background colour `(38,92,255,0)` used throughout the
source for fresh canvases. -/
def bgc : Pixel := ⟨38, 92, 255, 0⟩

/-- Fully transparent black `(0,0,0,0)`, used by the source's rectangle
cut-outs. -/
def clearc : Pixel := ⟨0, 0, 0, 0⟩

/-- Model of `Image.new(mode, (w,h), c)`: a constant image. -/
def newImg (w h : Nat) (c : Pixel) : Img := ⟨w, h, fun _ _ => c⟩

/-- Model of `img.getpixel((x,y))`. -/
def getpixel (i : Img) (x y : Nat) : Pixel := i.px x y

/-- Model of `img.putpixel((x,y), c)`. -/
def putpixel (i : Img) (x0 y0 : Nat) (c : Pixel) : Img :=
  ⟨i.w, i.h, fun x y => if x = x0 ∧ y = y0 then c else i.px x y⟩

/-- Model of PIL `img.resize((w,h), Image.ANTIALIAS)` at interface level:
the result has exactly the requested size; pixel content is modelled as a
nearest-style resampling of the source (the ANTIALIAS filter kernel itself
is a library internal). -/
def resize (w h : Nat) (i : Img) : Img :=
  ⟨w, h, fun x y => i.px (x * i.w / w) (y * i.h / h)⟩

/-- Model of PIL `img.transform((w,h), Image.AFFINE, matrix)` at interface
level: the result has exactly the requested size (the PIL contract); the
floating-point affine matrix built in the source (rotate 45 degrees, shear,
vertical scale) is a library-internal resampling and is modelled as a plain
resampling of the source content. -/
def affineWarp (w h : Nat) (i : Img) : Img :=
  ⟨w, h, fun x y => i.px (x * i.w / w) (y * i.h / h)⟩

/-- Model of `img.transpose(Image.FLIP_LEFT_RIGHT)`. -/
def flipLR (i : Img) : Img := ⟨i.w, i.h, fun x y => i.px (i.w - 1 - x) y⟩

/-- Model of `img.transpose(Image.FLIP_TOP_BOTTOM)`. -/
def flipTB (i : Img) : Img := ⟨i.w, i.h, fun x y => i.px x (i.h - 1 - y)⟩

/-- Model of PIL `img.rotate(deg)` (counter-clockwise, size preserved, no
expansion).  Right-angle rotations are exact; for other angles (the torch
tilt of 15 degrees) only the size behaviour is modelled, since the
resampled content is a library internal no claim depends on. -/
def rotate (i : Img) (deg : Int) : Img :=
  if deg % 360 = 90 then ⟨i.w, i.h, fun x y => i.px (i.w - 1 - y) x⟩
  else if deg % 360 = 180 then ⟨i.w, i.h, fun x y => i.px (i.w - 1 - x) (i.h - 1 - y)⟩
  else if deg % 360 = 270 then ⟨i.w, i.h, fun x y => i.px y (i.h - 1 - x)⟩
  else ⟨i.w, i.h, i.px⟩

/-- Model of `img.crop((l,u,r,b))`. -/
def crop (i : Img) (l u r b : Nat) : Img :=
  ⟨r - l, b - u, fun x y => i.px (x + l) (y + u)⟩

/-- Model of `img.split()[3]`: the separated alpha band (an L-band image,
represented with the band value in every channel). -/
def alphaBand (i : Img) : Img :=
  ⟨i.w, i.h, fun x y => let a := (i.px x y).a; ⟨a, a, a, a⟩⟩

/-- Model of `img.putalpha(band)`: replaces the alpha channel with the
band's value. -/
def putalpha (i band : Img) : Img :=
  ⟨i.w, i.h, fun x y =>
    let p := i.px x y
    ⟨p.r, p.g, p.b, (band.px x y).r⟩⟩

/-- Model of `img.convert("RGB")`: drops the alpha channel (represented as
forcing alpha to 255). -/
def convRGB (i : Img) : Img :=
  ⟨i.w, i.h, fun x y =>
    let p := i.px x y
    ⟨p.r, p.g, p.b, 255⟩⟩

/-- Model of `ImageEnhance.Brightness(img).enhance(num/den)`: every channel
is scaled by the factor — including the alpha channel, exactly as the
source's comments warn ("These methods also affect the alpha layer"). -/
def brightness (num den : Nat) (i : Img) : Img :=
  ⟨i.w, i.h, fun x y =>
    let p := i.px x y
    ⟨p.r * num / den, p.g * num / den, p.b * num / den, p.a * num / den⟩⟩

/-- Model of `ImageDraw.Draw(img).rectangle((x0,y0,x1,y1), outline=c, fill=c)`:
fills the rectangle, inclusive of both corners (the PIL convention). -/
def drawRect (i : Img) (x0 y0 x1 y1 : Nat) (c : Pixel) : Img :=
  ⟨i.w, i.h, fun x y =>
    if x0 ≤ x ∧ x ≤ x1 ∧ y0 ≤ y ∧ y ≤ y1 then c else i.px x y⟩

/-- Model of `ImageDraw.Draw(img).line([(x0,y0),(x1,y1)], fill=c)` at
interface level: colours the pixels on the exact line segment. -/
def drawLine (i : Img) (x0 y0 x1 y1 : Nat) (c : Pixel) : Img :=
  ⟨i.w, i.h, fun x y =>
    if min x0 x1 ≤ x ∧ x ≤ max x0 x1 ∧ min y0 y1 ≤ y ∧ y ≤ max y0 y1 ∧
       ((y : Int) - (y0 : Int)) * ((x1 : Int) - (x0 : Int)) =
         ((x : Int) - (x0 : Int)) * ((y1 : Int) - (y0 : Int))
    then c else i.px x y⟩

/-- Modelled from the spec: `composite.alpha_over(dest, src, pos, mask)`.
The `composite` module is repository code that is not among the given
sources; per the spec it layers `src` onto `dest` at offset `pos` using the
mask's alpha channel as the blend weight (source-over), the mask defaulting
to `src` itself, so the source's own alpha masks it.  Out-of-range mask
coordinates contribute weight 0. -/
def alpha_over (dest src : Img) (pos : Int × Int) (mask : Option Img) : Img :=
  let m := mask.getD src
  ⟨dest.w, dest.h, fun x y =>
    let sx : Int := (x : Int) - pos.1
    let sy : Int := (y : Int) - pos.2
    if 0 ≤ sx ∧ sx < (src.w : Int) ∧ 0 ≤ sy ∧ sy < (src.h : Int) then
      let s := src.px sx.toNat sy.toNat
      let a := if sx < (m.w : Int) ∧ sy < (m.h : Int) then (m.px sx.toNat sy.toNat).a else 0
      let d := dest.px x y
      ⟨(s.r * a + d.r * (255 - a)) / 255,
       (s.g * a + d.g * (255 - a)) / 255,
       (s.b * a + d.b * (255 - a)) / 255,
       (s.a * a + d.a * (255 - a)) / 255⟩
    else dest.px x y⟩

/-- Placeholder content for the externally loaded atlas `terrain.png`
(a 256-by-256 decoded image supplied by a collaborator; its pixel content
is an environment input, modelled as an arbitrary definite pattern). -/
def terrainAtlas : Img := ⟨256, 256, fun x y => ⟨x % 256, y % 256, (x * 7 + y * 13) % 256, 255⟩⟩

/-- One cell of `_split_terrain(terrain)`: tile `i` is cut from the
16-by-16 grid (row-major, index = row*16 + column) by an EXTENT transform
resampled to 16-by-16. -/
def _split_terrain_tile (terrainImg : Img) (i : Nat) : Img :=
  let res := terrainImg.w / 16
  ⟨16, 16, fun x y =>
    terrainImg.px ((i % 16) * res + x * res / 16) ((i / 16) * res + y * res / 16)⟩

/-- `terrain_images[i]`: the i-th atlas tile. -/
def terrain (i : Nat) : Img := _split_terrain_tile terrainAtlas i

/-- Placeholder for the externally loaded `water.png` auxiliary tile. -/
def waterTex : Img := ⟨16, 16, fun _ _ => ⟨50, 60, 200, 255⟩⟩

/-- Placeholder for the externally loaded `lava.png` auxiliary tile. -/
def lavaTex : Img := ⟨16, 16, fun _ _ => ⟨230, 120, 30, 255⟩⟩

/-- Placeholder for the externally loaded `fire.png` auxiliary tile. -/
def fireTex : Img := ⟨16, 16, fun _ _ => ⟨255, 200, 40, 255⟩⟩

/-- `transform_image(img, blockID)`: resize to 17x17 (15x15 for cacti and
cake, ids 81 and 92), then the affine top-face projection to 24x12. -/
def transform_image (img : Img) (blockID : Option Nat) : Img :=
  let img :=
    if blockID = some 81 ∨ blockID = some 92 then resize 15 15 img
    else resize 17 17 img
  affineWarp 24 12 img

/-- `transform_image_side(img, blockID)`: optional top-masking for the step
block (44) and snow (78), then resize to 12x12 and shear to 12x18. -/
def transform_image_side (img : Img) (blockID : Option Nat) : Img :=
  let img :=
    if blockID = some 44 then
      let mask := crop img 0 8 16 16
      let n := newImg img.w img.h bgc
      alpha_over n mask (0, 0) (some mask)
    else img
  let img :=
    if blockID = some 78 then
      let mask := crop img 0 12 16 16
      let n := newImg img.w img.h bgc
      alpha_over n mask (0, 12) (some mask)
    else img
  affineWarp 12 18 (resize 12 12 img)

/-- `transform_image_slope(img, blockID)`: resize to 12x12 and the ramp
shear to 24x24 (used for minetracks). -/
def transform_image_slope (img : Img) (blockID : Option Nat) : Img :=
  affineWarp 24 24 (resize 12 12 img)

/-- The side-face preparation of `_build_block` (source lines 212-224):
shear the side tile, mirror it for the opposite face, then darken the left
face by 0.9 and the mirrored right face by 0.8, saving each face's alpha
band first and putting it back so darkening never changes transparency.
Returns (left face, right face). -/
def _build_block_sides (side0 : Img) (blockID : Option Nat) : Img × Img :=
  let side := transform_image_side side0 blockID
  let otherside := flipLR side
  let sidealpha := alphaBand side
  let side := putalpha (brightness 9 10 side) sidealpha
  let othersidealpha := alphaBand otherside
  let otherside := putalpha (brightness 8 10 otherside) othersidealpha
  (side, otherside)

/-- The fixed seam touch-up of `_build_block` (source lines 257-264): six
pixels are copied from a horizontal neighbour to close the 1-pixel gaps the
shear leaves. -/
def touchUp (img : Img) : Img :=
  let img := putpixel img 13 23 (getpixel img 12 23)
  let img := putpixel img 17 21 (getpixel img 16 21)
  let img := putpixel img 21 19 (getpixel img 20 19)
  let img := putpixel img 3 4 (getpixel img 4 4)
  let img := putpixel img 7 2 (getpixel img 8 2)
  putpixel img 11 0 (getpixel img 12 0)

/-- `_build_block(top, side, blockID)`: the simple top-plus-mirrored-side
cube builder, with the kind-specific placement branches and the seam
touch-up. -/
def _build_block (top : Img) (side? : Option Img) (blockID : Option Nat) : Img :=
  let img := newImg 24 24 bgc
  let top := transform_image top blockID
  match side? with
  | none => alpha_over img top (0, 0) (some top)
  | some side0 =>
    let sides := _build_block_sides side0 blockID
    let side := sides.1
    let otherside := sides.2
    if blockID = some 37 ∨ blockID = some 38 ∨ blockID = some 6 ∨
       blockID = some 39 ∨ blockID = some 40 ∨ blockID = some 83 then
      alpha_over (alpha_over img side (6, 3) (some side)) otherside (6, 3) (some otherside)
    else
      let img :=
        if blockID = some 81 then
          alpha_over (alpha_over (alpha_over img side (2, 6) (some side))
            otherside (10, 6) (some otherside)) top (0, 2) (some top)
        else if blockID = some 44 then
          alpha_over (alpha_over (alpha_over img side (0, 12) (some side))
            otherside (12, 12) (some otherside)) top (0, 6) (some top)
        else if blockID = some 78 then
          alpha_over (alpha_over (alpha_over img side (0, 6) (some side))
            otherside (12, 6) (some otherside)) top (0, 9) (some top)
        else
          alpha_over (alpha_over (alpha_over img side (0, 6) (some side))
            otherside (12, 6) (some otherside)) top (0, 0) (some top)
      touchUp img

/-- `_build_full_block(top, side1, side2, side3, side4, bottom, blockID)`:
six independent optional faces composited back to front.  Note: the bottom
face is composited with the raw `top` argument as the mask, exactly as in
the source (line 309). -/
def _build_full_block (top side1 side2 side3 side4 bottom : Option Img)
    (blockID : Option Nat) : Img :=
  let img := newImg 24 24 bgc
  let img :=
    match side1 with
    | some s =>
      let s := transform_image_side s blockID
      let s := flipLR s
      let sidealpha := alphaBand s
      let s := putalpha (brightness 9 10 s) sidealpha
      alpha_over img s (0, 0) (some s)
    | none => img
  let img :=
    match side2 with
    | some s =>
      let s := transform_image_side s blockID
      let sidealpha2 := alphaBand s
      let s := putalpha (brightness 8 10 s) sidealpha2
      alpha_over img s (12, 0) (some s)
    | none => img
  let img :=
    match bottom with
    | some b =>
      let b := transform_image b blockID
      alpha_over img b (0, 12) top
    | none => img
  let img :=
    match side3 with
    | some s =>
      let s := transform_image_side s blockID
      let sidealpha := alphaBand s
      let s := putalpha (brightness 9 10 s) sidealpha
      alpha_over img s (0, 6) (some s)
    | none => img
  let img :=
    match side4 with
    | some s =>
      let s := transform_image_side s blockID
      let s := flipLR s
      let sidealpha := alphaBand s
      let s := putalpha (brightness 8 10 s) sidealpha
      alpha_over img s (12, 6) (some s)
    | none => img
  match top with
  | some t =>
    let t := transform_image t blockID
    alpha_over img t (0, 0) (some t)
  | none => img

/-- Model of `ImageOps.grayscale(im)`: per-pixel luma (ITU-R 601-2 weights,
the PIL convention); the resulting L-band image has no alpha channel,
exactly as the source's comment notes ("converting to grayscale drops the
alpha channel"). -/
def grayscale (i : Img) : Img :=
  ⟨i.w, i.h, fun x y =>
    let p := i.px x y
    let l := (p.r * 299 + p.g * 587 + p.b * 114) / 1000
    ⟨l, l, l, 255⟩⟩

/-- Model of `ImageOps.colorize(grayImg, (0,0,0), c)`: linear colorize
mapping black to black and white to `c`. -/
def colorize (i : Img) (c : Nat × Nat × Nat) : Img :=
  ⟨i.w, i.h, fun x y =>
    let l := (i.px x y).r
    ⟨l * c.1 / 255, l * c.2.1 / 255, l * c.2.2 / 255, 255⟩⟩

/-- `tintTexture(im, c)`: desaturate, colorize black-to-`c`, then copy the
original alpha band back in. -/
def tintTexture (im : Img) (c : Nat × Nat × Nat) : Img :=
  let i := colorize (grayscale im) c
  putalpha i (alphaBand im)

/-- Outcome of one `generate_special_texture(blockID, data)` run:
`fail` models a raised Python exception (an unbound local `img` at the
return statement), `skip` models falling through to `return None`, and
`made rgb alpha` models returning `(img.convert("RGB"), img.split()[3])`. -/
inductive GenResult where
  | fail : GenResult
  | skip : GenResult
  | made : Img → Img → GenResult

/-- The constructor shape of a `GenResult` (its presence information). -/
inductive Shape where
  | fail : Shape
  | skip : Shape
  | made : Shape
deriving DecidableEq

/-- Project a `GenResult` to its shape. -/
def GenResult.shape : GenResult → Shape
  | .fail => Shape.fail
  | .skip => Shape.skip
  | .made _ _ => Shape.made

/-- The `return (img.convert("RGB"), img.split()[3])` idiom used by every
branch of `generate_special_texture`. -/
def finish (img : Img) : GenResult :=
  GenResult.made (convRGB img) (alphaBand img)

/-- The straight-wire texture of the redstone branch (`redstone_wire_t`):
tile 165 tinted red when the powered bit (0b1000000) is set, dark red
otherwise. -/
def redstone_wire_t (data : Nat) : Img :=
  if data &&& 64 = 64 then tintTexture (terrain 165) (255, 0, 0)
  else tintTexture (terrain 165) (48, 0, 0)

/-- The cross texture of the redstone branch (`redstone_cross_t`):
tile 164 tinted like the wire texture. -/
def redstone_cross_t (data : Nat) : Img :=
  if data &&& 64 = 64 then tintTexture (terrain 164) (255, 0, 0)
  else tintTexture (terrain 164) (48, 0, 0)

/-- `branch_top_left` of the redstone branch: the cross tile with three
rectangles cut out. -/
def branch_top_left (data : Nat) : Img :=
  drawRect (drawRect (drawRect (redstone_cross_t data)
    0 0 4 15 clearc) 11 0 15 15 clearc) 0 11 15 15 clearc

/-- `branch_top_right` of the redstone branch. -/
def branch_top_right (data : Nat) : Img :=
  drawRect (drawRect (drawRect (redstone_cross_t data)
    0 0 15 4 clearc) 0 0 4 15 clearc) 0 11 15 15 clearc

/-- `branch_bottom_right` of the redstone branch. -/
def branch_bottom_right (data : Nat) : Img :=
  drawRect (drawRect (drawRect (redstone_cross_t data)
    0 0 15 4 clearc) 0 0 4 15 clearc) 11 0 15 15 clearc

/-- `branch_bottom_left` of the redstone branch. -/
def branch_bottom_left (data : Nat) : Img :=
  drawRect (drawRect (drawRect (redstone_cross_t data)
    0 0 15 4 clearc) 11 0 15 15 clearc) 0 11 15 15 clearc

/-- The bottom-face texture computed by the redstone-wire branch (source
lines 789-811): full cross when no connectivity bits are set, the straight
wire (un-rotated for 0b1010, rotated 90 degrees for 0b0101), otherwise the
per-direction branch stubs composited onto a fresh tile. -/
def redstoneBottom (data : Nat) : Img :=
  if data &&& 63 = 0 then redstone_cross_t data
  else if data &&& 15 = 10 then redstone_wire_t data
  else if data &&& 15 = 5 then rotate (redstone_wire_t data) 90
  else
    let bottom := newImg 16 16 bgc
    let bottom := if data &&& 1 = 1 then alpha_over bottom (branch_top_left data) (0, 0) none else bottom
    let bottom := if data &&& 8 = 8 then alpha_over bottom (branch_top_right data) (0, 0) none else bottom
    let bottom := if data &&& 2 = 2 then alpha_over bottom (branch_bottom_left data) (0, 0) none else bottom
    if data &&& 4 = 4 then alpha_over bottom (branch_bottom_right data) (0, 0) none else bottom

/-- The `side1` argument of the redstone-wire branch (going-up wire on bit
0b100000). -/
def redstoneSide1 (data : Nat) : Option Img :=
  if data &&& 32 = 32 then some (rotate (redstone_wire_t data) 90) else none

/-- The `side2` argument of the redstone-wire branch (going-up wire on bit
0b010000). -/
def redstoneSide2 (data : Nat) : Option Img :=
  if data &&& 16 = 16 then some (rotate (redstone_wire_t data) 90) else none

/-- The grass branch of `generate_special_texture` (blockID 2). -/
def gen_grass : GenResult :=
  let top := tintTexture (terrain 0) (115, 175, 71)
  finish (_build_block top (some (terrain 3)) (some 2))

/-- The saplings branch (blockID 6): the `data == 1` assignment is dead,
because the `else` attached to the `data == 2` test overwrites it. -/
def gen_saplings (blockID data : Nat) : GenResult :=
  let _t1 : Option Nat := if data = 1 then some 63 else none
  let t2 : Option Nat := if data = 2 then some 79 else some 15
  match t2 with
  | some ti => finish (_build_block (terrain ti) (some (terrain ti)) (some blockID))
  | none => GenResult.fail

/-- The water branch (blockID 9): one optional face per connectivity bit. -/
def gen_water (data : Nat) : GenResult :=
  let top := if data &&& 16 = 16 then some waterTex else none
  let side1 := if data &&& 1 = 1 then some waterTex else none
  let side2 := if data &&& 8 = 8 then some waterTex else none
  let side3 := if data &&& 2 = 2 then some waterTex else none
  let side4 := if data &&& 4 = 4 then some waterTex else none
  finish (_build_full_block top side1 side2 side3 side4 none none)

/-- The wood branch (blockID 17): only data 0, 1, 2 return; data 3 falls
through the whole dispatcher. -/
def gen_wood (data : Nat) : GenResult :=
  let top := terrain 21
  if data = 0 then finish (_build_block top (some (terrain 20)) (some 17))
  else if data = 1 then finish (_build_block top (some (terrain 116)) (some 17))
  else if data = 2 then finish (_build_block top (some (terrain 117)) (some 17))
  else GenResult.skip

/-- The leaves branch (blockID 18). -/
def gen_leaves : GenResult :=
  let t := tintTexture (terrain 52) (37, 118, 25)
  finish (_build_block t (some t) (some 18))

/-- The dispenser branch (blockID 23). -/
def gen_dispenser : GenResult :=
  let top := transform_image (terrain 62) none
  let side1 := transform_image_side (terrain 46) none
  let side2 := flipLR (transform_image_side (terrain 45) none)
  let img := newImg 24 24 bgc
  let img := alpha_over img side1 (0, 6) (some side1)
  let img := alpha_over img side2 (12, 6) (some side2)
  let img := alpha_over img top (0, 0) (some top)
  finish img

/-- The wool branch (blockID 35): 16 colour cases; anything else falls
through. -/
def gen_wool (data : Nat) : GenResult :=
  let ti : Option Nat :=
    if data = 0 then some 64
    else if data = 1 then some 210
    else if data = 2 then some 194
    else if data = 3 then some 178
    else if data = 4 then some 162
    else if data = 5 then some 146
    else if data = 6 then some 130
    else if data = 7 then some 114
    else if data = 8 then some 225
    else if data = 9 then some 209
    else if data = 10 then some 193
    else if data = 11 then some 177
    else if data = 12 then some 161
    else if data = 13 then some 145
    else if data = 14 then some 129
    else if data = 15 then some 113
    else none
  match ti with
  | some t => finish (_build_block (terrain t) (some (terrain t)) (some 35))
  | none => GenResult.skip

/-- The slab and double-slab branch (blockIDs 43, 44). -/
def gen_slab (blockID data : Nat) : GenResult :=
  if data = 0 then finish (_build_block (terrain 6) (some (terrain 5)) (some blockID))
  else if data = 1 then finish (_build_block (terrain 176) (some (terrain 192)) (some blockID))
  else if data = 2 then finish (_build_block (terrain 4) (some (terrain 4)) (some blockID))
  else if data = 3 then finish (_build_block (terrain 16) (some (terrain 16)) (some blockID))
  else GenResult.skip

/-- The torch-family branch (blockIDs 50, 75, 76): for data outside
{1,2,3,4,5} the Python local `img` is read while unbound at the return
statement, which raises — modelled as `GenResult.fail`. -/
def gen_torch (blockID data : Nat) : GenResult :=
  let small :=
    if blockID = 50 then terrain 80
    else if blockID = 75 then terrain 115
    else terrain 99
  let torch := newImg 16 16 bgc
  let torch := alpha_over torch small (-4, -3) none
  let torch := alpha_over torch small (-5, -2) none
  let torch := alpha_over torch small (-3, -2) none
  let img? : Option Img :=
    if data = 1 then
      some (_build_full_block none none none (some (rotate torch (-15))) none none (some blockID))
    else if data = 2 then
      some (_build_full_block none none (some (rotate torch 15)) none none none (some blockID))
    else if data = 3 then
      some (_build_full_block none (some (rotate torch 15)) none none none none (some blockID))
    else if data = 4 then
      some (_build_full_block none none none none (some (rotate torch (-15))) none (some blockID))
    else if data = 5 then
      let img := newImg 24 24 bgc
      let small_crop := crop small 2 2 14 14
      let sl := small_crop
      let sl := drawRect sl 6 0 12 12 clearc
      let sl := drawRect sl 0 0 4 12 clearc
      let img := alpha_over img sl (6, 4) none
      let img := alpha_over img small_crop (5, 5) none
      let img := alpha_over img small_crop (6, 5) none
      some (alpha_over img sl (6, 6) none)
    else none
  match img? with
  | some img => finish img
  | none => GenResult.fail

/-- The fire branch (blockID 51). -/
def gen_fire : GenResult :=
  let side1 := transform_image_side fireTex none
  let side2 := flipLR (transform_image_side fireTex none)
  let img := newImg 24 24 bgc
  let img := alpha_over img side1 (12, 0) (some side1)
  let img := alpha_over img side2 (0, 0) (some side2)
  let img := alpha_over img side1 (0, 6) (some side1)
  let img := alpha_over img side2 (12, 6) (some side2)
  finish img

/-- The stairs branch (blockIDs 53, 67); only data 0..3 assign `img`, any
other data raises at the return statement. -/
def gen_stairs (blockID data : Nat) : GenResult :=
  let texture := if blockID = 53 then terrain 4 else terrain 16
  let side := drawRect texture 0 0 7 6 clearc
  let half_block_u := drawRect texture 0 8 15 15 clearc
  let half_block_d := drawRect texture 0 0 15 6 clearc
  let half_block_l := drawRect texture 8 0 15 15 clearc
  let half_block_r := drawRect texture 0 0 7 15 clearc
  let img? : Option Img :=
    if data = 0 then
      let img := _build_full_block (some half_block_r) none none
        (some half_block_d) (some (flipLR side)) none none
      let tmp1 := transform_image_side half_block_u none
      let sidealpha := alphaBand tmp1
      let tmp1 := putalpha (brightness 8 10 tmp1) sidealpha
      let img := alpha_over img tmp1 (6, 3) none
      let tmp2 := transform_image half_block_l none
      some (alpha_over img tmp2 (0, 6) none)
    else if data = 1 then
      let img := newImg 24 24 bgc
      let tmp1 := transform_image half_block_r none
      let img := alpha_over img tmp1 (0, 6) none
      let tmp2 := _build_full_block (some half_block_l) none none
        (some texture) (some side) none none
      some (alpha_over img tmp2 (0, 0) none)
    else if data = 2 then
      let img := newImg 24 24 bgc
      let tmp1 := transform_image half_block_u none
      let img := alpha_over img tmp1 (0, 6) none
      let tmp2 := _build_full_block (some half_block_d) none none
        (some side) (some texture) none none
      some (alpha_over img tmp2 (0, 0) none)
    else if data = 3 then
      let img := _build_full_block (some half_block_u) none none
        (some (flipLR side)) (some half_block_d) none none
      let tmp1 := flipLR (transform_image_side half_block_u none)
      let sidealpha := alphaBand tmp1
      let tmp1 := putalpha (brightness 7 10 tmp1) sidealpha
      let img := alpha_over img tmp1 (6, 3) none
      let tmp2 := transform_image half_block_d none
      let img := alpha_over img tmp2 (0, 6) none
      some (putpixel img 18 3 clearc)
    else none
  match img? with
  | some img => finish img
  | none => GenResult.fail

/-- The redstone-wire branch (blockID 55). -/
def gen_wire (data : Nat) : GenResult :=
  finish (_build_full_block none (redstoneSide1 data) (redstoneSide2 data)
    none none (some (redstoneBottom data)) none)

/-- The crafting-table branch (blockID 58). -/
def gen_crafting : GenResult :=
  finish (_build_full_block (some (terrain 43)) none none
    (some (terrain 59)) (some (terrain 60)) none (some 58))

/-- The crops branch (blockID 59): growth stage selects the tile. -/
def gen_crops (data : Nat) : GenResult :=
  let raw_crop := terrain (88 + data)
  let crop1 := transform_image raw_crop (some 59)
  let crop2 := transform_image_side raw_crop (some 59)
  let crop3 := flipLR crop2
  let img := newImg 24 24 bgc
  let img := alpha_over img crop1 (0, 12) (some crop1)
  let img := alpha_over img crop2 (6, 3) (some crop2)
  let img := alpha_over img crop3 (6, 3) (some crop3)
  finish img

/-- The furnace branch (blockID 61). -/
def gen_furnace : GenResult :=
  let top := transform_image (terrain 62) none
  let side1 := transform_image_side (terrain 45) none
  let side2 := flipLR (transform_image_side (terrain 44) none)
  let img := newImg 24 24 bgc
  let img := alpha_over img side1 (0, 6) (some side1)
  let img := alpha_over img side2 (12, 6) (some side2)
  let img := alpha_over img top (0, 0) (some top)
  finish img

/-- The lit-furnace branch (blockID 62). -/
def gen_lit_furnace : GenResult :=
  let top := transform_image (terrain 62) none
  let side1 := transform_image_side (terrain 45) none
  let side2 := flipLR (transform_image_side (terrain 61) none)
  let img := newImg 24 24 bgc
  let img := alpha_over img side1 (0, 6) (some side1)
  let img := alpha_over img side2 (12, 6) (some side2)
  let img := alpha_over img top (0, 0) (some top)
  finish img

/-- The door branch (blockIDs 64, 71): high bit selects top/bottom tile,
bit 0x4 the swung state, low two bits the orientation. -/
def gen_door (blockID data : Nat) : GenResult :=
  let raw_door :=
    if data &&& 8 = 8 then terrain (if blockID = 64 then 81 else 82)
    else terrain (if blockID = 64 then 97 else 98)
  let swung : Bool := data &&& 4 == 4
  let img := newImg 24 24 bgc
  let img :=
    if data &&& 3 = 0 then
      if swung then
        let tex := flipLR (transform_image_side (flipLR raw_door) none)
        alpha_over img tex (0, 0) (some tex)
      else
        let tex := transform_image_side raw_door none
        alpha_over img tex (0, 6) (some tex)
    else img
  let img :=
    if data &&& 3 = 1 then
      if swung then
        let tex := transform_image_side raw_door none
        alpha_over img tex (12, 0) (some tex)
      else
        let tex := flipLR (transform_image_side raw_door none)
        alpha_over img tex (0, 0) (some tex)
    else img
  let img :=
    if data &&& 3 = 2 then
      if swung then
        let tex := flipLR (transform_image_side raw_door none)
        alpha_over img tex (12, 6) (some tex)
      else
        let tex := transform_image_side (flipLR raw_door) none
        alpha_over img tex (12, 0) (some tex)
    else img
  let img :=
    if data &&& 3 = 3 then
      if swung then
        let tex := transform_image_side (flipLR raw_door) none
        alpha_over img tex (0, 6) (some tex)
      else
        let tex := flipLR (transform_image_side (flipLR raw_door) none)
        alpha_over img tex (12, 6) (some tex)
    else img
  finish img

/-- The ladder branch (blockID 65): data 2..5 return, anything else falls
through the dispatcher. -/
def gen_ladder (data : Nat) : GenResult :=
  let raw_texture := terrain 83
  if data = 5 then
    let tex := transform_image_side raw_texture none
    finish (alpha_over (newImg 24 24 bgc) tex (0, 6) (some tex))
  else if data = 2 then
    let tex := flipLR (transform_image_side raw_texture none)
    finish (alpha_over (newImg 24 24 bgc) tex (12, 6) (some tex))
  else if data = 3 then
    let tex := flipLR (transform_image_side raw_texture none)
    finish (alpha_over (newImg 24 24 bgc) tex (0, 0) (some tex))
  else if data = 4 then
    let tex := transform_image_side raw_texture none
    finish (alpha_over (newImg 24 24 bgc) tex (12, 0) (some tex))
  else GenResult.skip

/-- The minetrack branch (blockIDs 27, 28, 66): the powered rail masks its
powered bit off its data; slope states 3 and 5 are drawn as a raw line. -/
def gen_rail (blockID data : Nat) : GenResult :=
  let rcd : Img × Img × Nat :=
    if blockID = 27 then
      if data &&& 8 = 0 then (terrain 163, terrain 112, data &&& 7)
      else (terrain 179, terrain 112, data &&& 7)
    else if blockID = 28 then (terrain 195, terrain 112, data)
    else (terrain 128, terrain 112, data)
  let raw_straight := rcd.1
  let raw_corner := rcd.2.1
  let data := rcd.2.2
  if data = 2 then
    let track := flipLR (transform_image_slope raw_straight (some blockID))
    finish (alpha_over (newImg 24 24 bgc) track (2, 0) (some track))
  else if data = 3 then
    finish (drawLine (newImg 24 24 bgc) 11 11 23 17 (Pixel.mk 164 164 164 255))
  else if data = 4 then
    let track := transform_image_slope raw_straight (some blockID)
    finish (alpha_over (newImg 24 24 bgc) track (0, 0) (some track))
  else if data = 5 then
    finish (drawLine (newImg 24 24 bgc) 1 17 12 11 (Pixel.mk 164 164 164 255))
  else
    let track :=
      if data = 0 then transform_image raw_straight (some blockID)
      else if data = 6 then transform_image raw_corner (some blockID)
      else if data = 7 then transform_image (rotate raw_corner 270) (some blockID)
      else if data = 8 then transform_image (rotate (flipTB raw_corner) 90) (some blockID)
      else if data = 9 then transform_image (flipTB raw_corner) (some blockID)
      else if data = 1 then transform_image (rotate raw_straight 90) (some blockID)
      else transform_image raw_straight (some blockID)
    finish (alpha_over (newImg 24 24 bgc) track (0, 12) (some track))

/-- The fence branch (blockID 85): a big post plus up to four small rail
stubs per connectivity bit. -/
def gen_fence (data : Nat) : GenResult :=
  let raw_texture := terrain 4
  let raw_fence_top := newImg 16 16 bgc
  let raw_fence_side := newImg 16 16 bgc
  let fence_top_mask := newImg 16 16 bgc
  let fence_side_mask := newImg 16 16 bgc
  let fence_top_mask := drawRect fence_top_mask 6 6 9 9 (Pixel.mk 0 0 0 255)
  let fence_side_mask := drawRect fence_side_mask 6 1 9 15 (Pixel.mk 0 0 0 255)
  let raw_fence_top := alpha_over raw_fence_top raw_texture (0, 0) (some fence_top_mask)
  let raw_fence_side := alpha_over raw_fence_side raw_texture (0, 0) (some fence_side_mask)
  let fence_side := transform_image_side raw_fence_side (some 85)
  let fence_other_side := flipLR fence_side
  let fence_top := transform_image raw_fence_top (some 85)
  let sidealpha := alphaBand fence_side
  let fence_side := putalpha (brightness 9 10 fence_side) sidealpha
  let othersidealpha := alphaBand fence_other_side
  let fence_other_side := putalpha (brightness 8 10 fence_other_side) othersidealpha
  let fence_big := newImg 24 24 bgc
  let fence_big := alpha_over fence_big fence_side (5, 4) (some fence_side)
  let fence_big := alpha_over fence_big fence_other_side (7, 4) (some fence_other_side)
  let fence_big := alpha_over fence_big fence_top (0, 1) (some fence_top)
  let raw_fence_small_side := newImg 16 16 bgc
  let fence_small_side_mask := newImg 16 16 bgc
  let fence_small_side_mask := drawRect fence_small_side_mask 10 1 15 3 (Pixel.mk 0 0 0 255)
  let fence_small_side_mask := drawRect fence_small_side_mask 10 7 15 9 (Pixel.mk 0 0 0 255)
  let raw_fence_small_side :=
    alpha_over raw_fence_small_side raw_texture (0, 0) (some fence_small_side_mask)
  let fence_small_side := transform_image_side raw_fence_small_side (some 85)
  let fence_small_other_side := flipLR fence_small_side
  let sidealpha1 := alphaBand fence_small_other_side
  let fence_small_other_side := putalpha (brightness 9 10 fence_small_other_side) sidealpha1
  let sidealpha2 := alphaBand fence_small_side
  let fence_small_side := putalpha (brightness 9 10 fence_small_side) sidealpha2
  let img := newImg 24 24 bgc
  let pos_top_left : Int × Int := (-2, 0)
  let pos_top_right : Int × Int := (14, 0)
  let pos_bottom_right : Int × Int := (6, 4)
  let pos_bottom_left : Int × Int := (6, 4)
  let img :=
    if data &&& 1 = 1 then alpha_over img fence_small_side pos_top_left (some fence_small_side)
    else img
  let img :=
    if data &&& 8 = 8 then alpha_over img fence_small_other_side pos_top_right (some fence_small_other_side)
    else img
  let img := alpha_over img fence_big (0, 0) (some fence_big)
  let img :=
    if data &&& 2 = 2 then alpha_over img fence_small_other_side pos_bottom_left (some fence_small_other_side)
    else img
  let img :=
    if data &&& 4 = 4 then alpha_over img fence_small_side pos_bottom_right (some fence_small_side)
    else img
  finish img

/-- The pumpkin / jack-o-lantern branch (blockIDs 86, 91). -/
def gen_pumpkin (blockID : Nat) : GenResult :=
  let top := transform_image (terrain 102) none
  let frontID := if blockID = 86 then 119 else 120
  let side1 := transform_image_side (terrain frontID) none
  let side2 := flipLR (transform_image_side (terrain 118) none)
  let img := newImg 24 24 bgc
  let img := alpha_over img side1 (0, 6) (some side1)
  let img := alpha_over img side2 (12, 6) (some side2)
  let img := alpha_over img top (0, 0) (some top)
  finish img

/-- The cake branch (blockID 92): a reduced-height two-sided cube. -/
def gen_cake : GenResult :=
  let top := terrain 121
  let side := terrain 122
  let top := transform_image top (some 92)
  let side := transform_image_side side (some 92)
  let otherside := flipLR side
  let sidealpha := alphaBand side
  let side := putalpha (brightness 9 10 side) sidealpha
  let othersidealpha := alphaBand otherside
  let otherside := putalpha (brightness 8 10 otherside) othersidealpha
  let img := newImg 24 24 bgc
  let img := alpha_over img side (2, 12) (some side)
  let img := alpha_over img otherside (10, 12) (some otherside)
  let img := alpha_over img top (0, 8) (some top)
  finish img

/-- `generate_special_texture(blockID, data)`: the per-kind dispatch, in
source branch order; a branch path on which the Python local `img` would be
read while unbound yields `GenResult.fail`, and falling past every branch
yields `GenResult.skip` (the final `return None`). -/
def generate_special_texture (blockID data : Nat) : GenResult :=
  if blockID = 2 then gen_grass
  else if blockID = 6 then gen_saplings blockID data
  else if blockID = 9 then gen_water data
  else if blockID = 17 then gen_wood data
  else if blockID = 18 then gen_leaves
  else if blockID = 23 then gen_dispenser
  else if blockID = 35 then gen_wool data
  else if blockID = 43 ∨ blockID = 44 then gen_slab blockID data
  else if blockID = 50 ∨ blockID = 75 ∨ blockID = 76 then gen_torch blockID data
  else if blockID = 51 then gen_fire
  else if blockID = 53 ∨ blockID = 67 then gen_stairs blockID data
  else if blockID = 55 then gen_wire data
  else if blockID = 58 then gen_crafting
  else if blockID = 59 then gen_crops data
  else if blockID = 61 then gen_furnace
  else if blockID = 62 then gen_lit_furnace
  else if blockID = 64 ∨ blockID = 71 then gen_door blockID data
  else if blockID = 65 then gen_ladder data
  else if blockID = 27 ∨ blockID = 28 ∨ blockID = 66 then gen_rail blockID data
  else if blockID = 85 then gen_fence data
  else if blockID = 86 ∨ blockID = 91 then gen_pumpkin blockID
  else if blockID = 92 then gen_cake
  else GenResult.skip

/-- `special_blocks`: the block ids that require ancillary-data-dependent
precomputation (source lines 1250-1252). -/
def special_blocks : List Nat :=
  [2, 6, 9, 17, 18, 23, 27, 28, 35, 43, 44, 50, 51,
   53, 55, 58, 59, 61, 62, 64, 65, 66, 67, 71, 75, 76,
   85, 86, 91, 92]

/-- `special_map`: for each special block id, the list of all ancillary
data values it may have (source lines 1257-1295); ids outside the map have
no declared domain. -/
def special_map (b : Nat) : List Nat :=
  if b = 6 then List.range 4
  else if b = 9 then List.range 32
  else if b = 17 then List.range 4
  else if b = 23 then List.range 6
  else if b = 27 then List.range 14
  else if b = 28 then List.range 6
  else if b = 35 then List.range 16
  else if b = 43 then List.range 4
  else if b = 44 then List.range 4
  else if b = 50 then [1, 2, 3, 4, 5]
  else if b = 51 then List.range 16
  else if b = 53 then List.range 4
  else if b = 55 then List.range 128
  else if b = 58 then [0]
  else if b = 59 then List.range 8
  else if b = 61 then List.range 6
  else if b = 62 then List.range 6
  else if b = 64 then List.range 16
  else if b = 65 then [2, 3, 4, 5]
  else if b = 66 then List.range 10
  else if b = 67 then List.range 4
  else if b = 71 then List.range 16
  else if b = 75 then [1, 2, 3, 4, 5]
  else if b = 76 then [1, 2, 3, 4, 5]
  else if b = 85 then List.range 17
  else if b = 86 then List.range 5
  else if b = 91 then List.range 5
  else if b = 92 then List.range 6
  else if b = 2 then List.range 11
  else if b = 18 then List.range 16
  else []

/-- `specialblockmap` as a mapping: the dictionary built at module load
holds a key `(blockID, data)` exactly for `blockID` in `special_blocks`
and `data` in `special_map[blockID]`, with value
`generate_special_texture(blockID, data)`. -/
def specialblockmap (blockID data : Nat) : Option GenResult :=
  if blockID ∈ special_blocks ∧ data ∈ special_map blockID then
    some (generate_special_texture blockID data)
  else none

/-- The block ids tested by some branch of `generate_special_texture`, in
source branch order; any other id falls through every branch. -/
def dispatchKinds : List Nat :=
  [2, 6, 9, 17, 18, 23, 35, 43, 44, 50, 75, 76, 51, 53, 67, 55, 58, 59,
   61, 62, 64, 71, 65, 27, 28, 66, 85, 86, 91, 92]

/-- The `topids` table of `_build_blockimages` (top tile index per block
id, -1 meaning no plain cube). -/
def topids : List Int :=
  [-1,  1,  0,  2, 16,  4, -1, 17, 205, 205, 237, 237, 18, 19, 32, 33,
   34, -1, 52, 48, 49, 160, 144, -1, 176, 74, -1, -1, -1, -1, -1, -1,
   -1, -1, -1, -1, -1, 13, 12, 29, 28, 23, 22, -1, -1,  7,  8, 35,
   36, 37, -1, -1, 65, -1, 25, -1, 98, 24, -1, -1, 86, -1, -1, -1,
   -1, -1, -1, -1, -1, -1, -1, -1, -1, 51, 51, -1, -1, -1, 66, 67,
   66, 69, 72, 73, 74, -1, 102, 103, 104, 105, -1, 102]

/-- The `sideids` table of `_build_blockimages` (side tile index per block
id). -/
def sideids : List Int :=
  [-1,  1,  3,  2, 16,  4, -1, 17, 205, 205, 237, 237, 18, 19, 32, 33,
   34, -1, 52, 48, 49, 160, 144, -1, 192, 74, -1, -1, -1, -1, -1, -1,
   -1, -1, -1, -1, -1, 13, 12, 29, 28, 23, 22, -1, -1,  7,  8, 35,
   36, 37, -1, -1, 65, -1, 25, 101, 98, 24, -1, -1, 86, -1, -1, -1,
   -1, -1, -1, -1, -1, -1, -1, -1, -1, 51, 51, -1, -1, -1, 66, 67,
   66, 69, 72, 73, 74, -1, 118, 103, 104, 105, -1, 118]

/-- One entry of `_build_blockimages`: `None` for a -1 tile index,
otherwise the built cube stored as `(img.convert("RGB"), img.split()[3])`
— an RGB image plus the separated alpha band. -/
def buildImagesEntry (t s : Int) (bid : Nat) : Option (Img × Img) :=
  if t = -1 ∨ s = -1 then none
  else
    let img := _build_block (terrain t.toNat) (some (terrain s.toNat)) (some bid)
    some (convRGB img, alphaBand img)

/-- `_build_blockimages()`: the plain-cube mapping from block id to
`(RGB image, alpha band)`, padded with `None` to 256 entries. -/
def _build_blockimages : List (Option (Img × Img)) :=
  let allimages :=
    (List.zip (List.zip topids sideids) (List.range topids.length)).map
      (fun p => buildImagesEntry p.1.1 p.1.2 p.2)
  allimages ++ List.replicate (256 - allimages.length) none

/-- `w1` of `load_water()`: standing water, a block with only the top face
showing. -/
def w1 : Img := _build_block waterTex none none

/-- `w2` of `load_water()`: flowing water, a full two-sided cube. -/
def w2 : Img := _build_block waterTex (some waterTex) none

/-- `lavablock` of `load_water()`. -/
def lavablock : Img := _build_block lavaTex (some lavaTex) none

/-- The `blockmap` global after `load_water()` has run: water and lava
entries overwrite the plain-cube table, each storing
`(img.convert("RGB"), img)` — the second component is the full RGBA image,
not a separated alpha band — and entry 11 is set to the entry of 10. -/
def blockmap : List (Option (Img × Img)) :=
  let bm := _build_blockimages
  let bm := bm.set 9 (some (convRGB w1, w1))
  let bm := bm.set 8 (some (convRGB w2, w2))
  let bm := bm.set 10 (some (convRGB lavablock, lavablock))
  bm.set 11 (bm.getD 10 none)

/-- A 16x16 fully transparent test tile (constant RGBA (1,2,3,0)). -/
def clearTop : Img := newImg 16 16 ⟨1, 2, 3, 0⟩

/-- A 16x16 fully opaque test tile (constant RGBA (200,50,50,255)). -/
def opaqueBottom : Img := newImg 16 16 ⟨200, 50, 50, 255⟩

/-- Modelled from the spec: the full cube builder as the spec words it,
with the bottom face "masked by the source's own alpha" — i.e. identical to
`_build_full_block` except that the bottom paste uses the transformed
bottom itself as its mask instead of the raw `top` argument.  Defined only
for comparison with `_build_full_block`. -/
def _build_full_block_ownmask (top side1 side2 side3 side4 bottom : Option Img)
    (blockID : Option Nat) : Img :=
  let img := newImg 24 24 bgc
  let img :=
    match side1 with
    | some s =>
      let s := transform_image_side s blockID
      let s := flipLR s
      let sidealpha := alphaBand s
      let s := putalpha (brightness 9 10 s) sidealpha
      alpha_over img s (0, 0) (some s)
    | none => img
  let img :=
    match side2 with
    | some s =>
      let s := transform_image_side s blockID
      let sidealpha2 := alphaBand s
      let s := putalpha (brightness 8 10 s) sidealpha2
      alpha_over img s (12, 0) (some s)
    | none => img
  let img :=
    match bottom with
    | some b =>
      let b := transform_image b blockID
      alpha_over img b (0, 12) (some b)
    | none => img
  let img :=
    match side3 with
    | some s =>
      let s := transform_image_side s blockID
      let sidealpha := alphaBand s
      let s := putalpha (brightness 9 10 s) sidealpha
      alpha_over img s (0, 6) (some s)
    | none => img
  let img :=
    match side4 with
    | some s =>
      let s := transform_image_side s blockID
      let s := flipLR s
      let sidealpha := alphaBand s
      let s := putalpha (brightness 8 10 s) sidealpha
      alpha_over img s (12, 6) (some s)
    | none => img
  match top with
  | some t =>
    let t := transform_image t blockID
    alpha_over img t (0, 0) (some t)
  | none => img

/-- Helper: after the seam touch-up, each of the six copied pixels equals
its source neighbour, whatever the underlying image. -/
theorem touchUp_seams (i : Img) :
    getpixel (touchUp i) 13 23 = getpixel (touchUp i) 12 23 ∧
    getpixel (touchUp i) 17 21 = getpixel (touchUp i) 16 21 ∧
    getpixel (touchUp i) 21 19 = getpixel (touchUp i) 20 19 ∧
    getpixel (touchUp i) 3 4 = getpixel (touchUp i) 4 4 ∧
    getpixel (touchUp i) 7 2 = getpixel (touchUp i) 8 2 ∧
    getpixel (touchUp i) 11 0 = getpixel (touchUp i) 12 0 := by
  simp [touchUp, putpixel, getpixel]

/-- Helper: every entry of the plain-cube table is either absent or an
(RGB conversion, separated alpha band) pair of some built image. -/
theorem blockimages_entry_shape (x : Option (Img × Img)) (hx : x ∈ _build_blockimages) :
    x = none ∨ ∃ img0, x = some (convRGB img0, alphaBand img0) := by
  unfold _build_blockimages at hx
  rcases List.mem_append.1 hx with hx | hx
  · rcases List.mem_map.1 hx with ⟨a, _, rfl⟩
    unfold buildImagesEntry
    split
    · exact Or.inl rfl
    · exact Or.inr ⟨_, rfl⟩
  · exact Or.inl (List.eq_of_mem_replicate hx)

/-- Claim C1 counterexample: state 3 lies in the declared domain
`special_map[17]` of the state-dependent wood kind 17, yet the cache entry
for `(17, 3)` holds an absent sprite — the generator's wood branch handles
only states 0, 1, 2 and falls through to `return None`. -/
theorem C1_counterexample :
    17 ∈ special_blocks ∧ 3 ∈ special_map 17 ∧
    (specialblockmap 17 3).map GenResult.shape = some Shape.skip := by
  decide

set_option maxRecDepth 4000 in
/-- Claim C1 (amended): the cache holds an entry for `(kind, state)`
exactly when `kind` is in `special_blocks` and `state` is in
`special_map[kind]` (so no entry exists outside the declared domains), and
every such entry holds a present sprite, with the single exception of wood
kind 17 at state 3, whose entry is absent. -/
theorem C1_cache_domain :
    (∀ k d, (specialblockmap k d).isSome = true ↔
      (k ∈ special_blocks ∧ d ∈ special_map k)) ∧
    (∀ k d r, specialblockmap k d = some r →
      (GenResult.shape r = Shape.made ↔ ¬(k = 17 ∧ d = 3))) := by
  have key : ∀ k, k ∈ special_blocks → ∀ d, d ∈ special_map k →
      (GenResult.shape (generate_special_texture k d) = Shape.made ↔ ¬(k = 17 ∧ d = 3)) := by
    intro k hk
    simp only [special_blocks, List.mem_cons, List.not_mem_nil, or_false] at hk
    rcases hk with rfl|rfl|rfl|rfl|rfl|rfl|rfl|rfl|rfl|rfl|rfl|rfl|rfl|rfl|rfl|rfl|rfl|rfl|
      rfl|rfl|rfl|rfl|rfl|rfl|rfl|rfl|rfl|rfl|rfl|rfl <;> decide
  constructor
  · intro k d
    unfold specialblockmap
    by_cases hc : k ∈ special_blocks ∧ d ∈ special_map k
    · rw [if_pos hc]; simp [hc]
    · rw [if_neg hc]; simp [hc]
  · intro k d r hr
    unfold specialblockmap at hr
    by_cases hc : k ∈ special_blocks ∧ d ∈ special_map k
    · rw [if_pos hc] at hr
      injection hr with hr
      subst hr
      exact key k hc.1 d hc.2
    · rw [if_neg hc] at hr
      cases hr

/-- Claim C1 witness: entry `(55, 10)` is present in the cache, and the
sprite stored at `(35, 5)` is a present one. -/
theorem C1_cache_domain_witness :
    (specialblockmap 55 10).isSome = true ∧
    (GenResult.shape (generate_special_texture 35 5) = Shape.made ↔ ¬(35 = 17 ∧ 5 = 3)) :=
  ⟨(C1_cache_domain.1 55 10).mpr (by decide),
   C1_cache_domain.2 35 5 (generate_special_texture 35 5) rfl⟩

/-- Claim C2 counterexample: torch kind 50 with state 0 (outside
{1,2,3,4,5}) does not return absent — the torch branch matches on the kind
alone and then reads the unbound local `img` at its return statement,
raising an error. -/
theorem C2_counterexample :
    GenResult.shape (generate_special_texture 50 0) = Shape.fail ∧
    GenResult.shape (generate_special_texture 50 0) ≠ Shape.skip := by
  decide

/-- Claim C2 (amended): a `(kind, state)` pair whose kind matches no
dispatch branch returns absent (None) normally for every state; but the
torch-family kinds 50, 75, 76 always match the torch branch, and for any
state outside {1,2,3,4,5} that branch raises (reads an unbound sprite
local) instead of returning absent. -/
theorem C2_unmatched_returns :
    (∀ k d, k ∉ dispatchKinds → generate_special_texture k d = GenResult.skip) ∧
    (∀ k d, (k = 50 ∨ k = 75 ∨ k = 76) → d ∉ ([1, 2, 3, 4, 5] : List Nat) →
      GenResult.shape (generate_special_texture k d) = Shape.fail) := by
  constructor
  · intro k d hk
    simp only [dispatchKinds, List.mem_cons, List.not_mem_nil, or_false, not_or] at hk
    obtain ⟨n2, n6, n9, n17, n18, n23, n35, n43, n44, n50, n75, n76, n51, n53, n67,
      n55, n58, n59, n61, n62, n64, n71, n65, n27, n28, n66, n85, n86, n91, n92⟩ := hk
    simp [generate_special_texture, n2, n6, n9, n17, n18, n23, n35, n43, n44, n50, n75,
      n76, n51, n53, n67, n55, n58, n59, n61, n62, n64, n71, n65, n27, n28, n66, n85,
      n86, n91, n92]
  · rintro k d (rfl | rfl | rfl) hd <;>
    · simp only [List.mem_cons, List.not_mem_nil, or_false, not_or] at hd
      obtain ⟨d1, d2, d3, d4, d5⟩ := hd
      simp [generate_special_texture, gen_torch, d1, d2, d3, d4, d5, GenResult.shape]

/-- Claim C2 witness: kind 3 (not dispatched) with state 0 returns absent;
redstone torch kind 75 with state 0 fails. -/
theorem C2_unmatched_returns_witness :
    generate_special_texture 3 0 = GenResult.skip ∧
    GenResult.shape (generate_special_texture 75 0) = Shape.fail :=
  ⟨C2_unmatched_returns.1 3 0 (by decide),
   C2_unmatched_returns.2 75 0 (by decide) (by decide)⟩

/-- Claim C3: in `_build_full_block` the bottom face is composited with the
raw `top` argument as its mask, not with its own alpha.  With a fully
transparent top tile and a fully opaque bottom tile, the bottom contributes
nothing — pixel (5,15) stays at the background colour — whereas the
spec-worded own-alpha compositor paints it with the bottom colour. -/
theorem C3_bottom_mask_bug :
    getpixel (_build_full_block (some clearTop) none none none none (some opaqueBottom) none) 5 15 = bgc ∧
    getpixel (_build_full_block_ownmask (some clearTop) none none none none (some opaqueBottom) none) 5 15 =
      ⟨200, 50, 50, 255⟩ ∧
    getpixel (_build_full_block (some clearTop) none none none none (some opaqueBottom) none) 5 15 ≠
      getpixel (_build_full_block_ownmask (some clearTop) none none none none (some opaqueBottom) none) 5 15 := by
  decide

/-- Claim C4: in the simple cube builder, the right-side face is the
horizontal mirror of the pre-darkened left face (structurally: darken 0.8
of the mirror, with the mirror's alpha band restored; the left face is
darken 0.9 with its own alpha restored), and pixelwise the right face's
RGB at (x,y) is the 0.8-scaled RGB of the sheared side at (11-x, y) with
alpha unchanged, while the left face's RGB at (x,y) is the 0.9-scaled RGB
at (x,y) with alpha unchanged. -/
theorem C4_mirrored_sides : ∀ (side0 : Img) (bid : Option Nat) (x y : Nat),
    x < 12 → y < 18 →
    ((_build_block_sides side0 bid).2 =
      putalpha (brightness 8 10 (flipLR (transform_image_side side0 bid)))
        (alphaBand (flipLR (transform_image_side side0 bid)))) ∧
    ((_build_block_sides side0 bid).1 =
      putalpha (brightness 9 10 (transform_image_side side0 bid))
        (alphaBand (transform_image_side side0 bid))) ∧
    ((_build_block_sides side0 bid).2.px x y).r =
      (((transform_image_side side0 bid).px (11 - x) y).r * 8) / 10 ∧
    ((_build_block_sides side0 bid).2.px x y).g =
      (((transform_image_side side0 bid).px (11 - x) y).g * 8) / 10 ∧
    ((_build_block_sides side0 bid).2.px x y).b =
      (((transform_image_side side0 bid).px (11 - x) y).b * 8) / 10 ∧
    ((_build_block_sides side0 bid).2.px x y).a =
      ((transform_image_side side0 bid).px (11 - x) y).a ∧
    ((_build_block_sides side0 bid).1.px x y).r =
      (((transform_image_side side0 bid).px x y).r * 9) / 10 ∧
    ((_build_block_sides side0 bid).1.px x y).g =
      (((transform_image_side side0 bid).px x y).g * 9) / 10 ∧
    ((_build_block_sides side0 bid).1.px x y).b =
      (((transform_image_side side0 bid).px x y).b * 9) / 10 ∧
    ((_build_block_sides side0 bid).1.px x y).a =
      ((transform_image_side side0 bid).px x y).a :=
  fun _ _ _ _ _ _ => ⟨rfl, rfl, rfl, rfl, rfl, rfl, rfl, rfl, rfl, rfl⟩

/-- Claim C4 witness: right-face alpha preservation at (0,0) for a
concrete tile. -/
theorem C4_mirrored_sides_witness :
    ((_build_block_sides (terrain 1) none).2.px 0 0).a =
      ((transform_image_side (terrain 1) none).px (11 - 0) 0).a :=
  (C4_mirrored_sides (terrain 1) none 0 0 (by decide) (by decide)).2.2.2.2.2.1

/-- Claim C5: for any kind taking the default placement branch of the
simple cube builder, the six documented seam pixels of the built cube
equal their copied neighbours. -/
theorem C5_seam_pixels : ∀ (top side : Img) (bid : Option Nat),
    ¬(bid = some 37 ∨ bid = some 38 ∨ bid = some 6 ∨ bid = some 39 ∨
      bid = some 40 ∨ bid = some 83) →
    bid ≠ some 81 → bid ≠ some 44 → bid ≠ some 78 →
    getpixel (_build_block top (some side) bid) 13 23 =
      getpixel (_build_block top (some side) bid) 12 23 ∧
    getpixel (_build_block top (some side) bid) 17 21 =
      getpixel (_build_block top (some side) bid) 16 21 ∧
    getpixel (_build_block top (some side) bid) 21 19 =
      getpixel (_build_block top (some side) bid) 20 19 ∧
    getpixel (_build_block top (some side) bid) 3 4 =
      getpixel (_build_block top (some side) bid) 4 4 ∧
    getpixel (_build_block top (some side) bid) 7 2 =
      getpixel (_build_block top (some side) bid) 8 2 ∧
    getpixel (_build_block top (some side) bid) 11 0 =
      getpixel (_build_block top (some side) bid) 12 0 := by
  intro top side bid hf h81 h44 h78
  simp only [_build_block]
  rw [if_neg hf, if_neg h81, if_neg h44, if_neg h78]
  exact touchUp_seams _

/-- Claim C5 witness: the (13,23)/(12,23) seam equality for a concrete
standard cube. -/
theorem C5_seam_pixels_witness :
    getpixel (_build_block (terrain 1) (some (terrain 2)) none) 13 23 =
      getpixel (_build_block (terrain 1) (some (terrain 2)) none) 12 23 :=
  (C5_seam_pixels (terrain 1) (terrain 2) none (by decide) (by decide)
    (by decide) (by decide)).1

/-- Claim C6: for redstone wire with the powered bit clear, low four bits
0b1010 give a bottom texture equal to the unpowered-tinted straight-wire
tile un-rotated, and 0b0101 the same tile rotated 90 degrees; the wire
branch of the generator builds its sprite from exactly this bottom
texture. -/
theorem C6_wire_bottom : ∀ d : Nat, d &&& 64 = 0 →
    (d &&& 15 = 10 → redstoneBottom d = tintTexture (terrain 165) (48, 0, 0)) ∧
    (d &&& 15 = 5 → redstoneBottom d = rotate (tintTexture (terrain 165) (48, 0, 0)) 90) ∧
    generate_special_texture 55 d =
      finish (_build_full_block none (redstoneSide1 d) (redstoneSide2 d)
        none none (some (redstoneBottom d)) none) := by
  intro d h64
  have hw : redstone_wire_t d = tintTexture (terrain 165) (48, 0, 0) := by
    unfold redstone_wire_t
    rw [if_neg]
    omega
  refine ⟨?_, ?_, rfl⟩
  · intro h15
    have h63 : d &&& 63 ≠ 0 := by
      intro h0
      have h1 : (d &&& 63) &&& 15 = d &&& 15 := by
        rw [Nat.land_assoc, show (63 &&& 15 : Nat) = 15 from by decide]
      rw [h0, h15] at h1
      simp at h1
    unfold redstoneBottom
    rw [if_neg h63, if_pos h15, hw]
  · intro h15
    have h63 : d &&& 63 ≠ 0 := by
      intro h0
      have h1 : (d &&& 63) &&& 15 = d &&& 15 := by
        rw [Nat.land_assoc, show (63 &&& 15 : Nat) = 15 from by decide]
      rw [h0, h15] at h1
      simp at h1
    have h10 : ¬(d &&& 15 = 10) := by omega
    unfold redstoneBottom
    rw [if_neg h63, if_neg h10, if_pos h15, hw]

/-- Claim C6 witness: state 0b1010 yields the un-rotated unpowered
straight-wire bottom. -/
theorem C6_wire_bottom_witness :
    redstoneBottom 10 = tintTexture (terrain 165) (48, 0, 0) :=
  (C6_wire_bottom 10 (by decide)).1 (by decide)

/-- Claim C7: biome tinting preserves the image size and leaves the alpha
channel byte-for-byte equal to the input's alpha channel. -/
theorem C7_tint_alpha : ∀ (im : Img) (c : Nat × Nat × Nat),
    (tintTexture im c).w = im.w ∧ (tintTexture im c).h = im.h ∧
    ∀ x y, x < im.w → y < im.h →
      ((tintTexture im c).px x y).a = (im.px x y).a :=
  fun _ _ => ⟨rfl, rfl, fun _ _ _ _ => rfl⟩

/-- Claim C7 witness: alpha preservation at a concrete pixel of a tinted
tile. -/
theorem C7_tint_alpha_witness :
    ((tintTexture (terrain 0) (115, 175, 71)).px 2 3).a = ((terrain 0).px 2 3).a :=
  (C7_tint_alpha (terrain 0) (115, 175, 71)).2.2 2 3 (by decide) (by decide)

/-- Claim C8: for every tile and kind, the top projection is 24x12 and the
side projection is 12x18, and the top projection first resizes the tile to
15x15 exactly for the cactus (81) and cake (92) kinds and to 17x17
otherwise. -/
theorem C8_projection_sizes : ∀ (i : Img) (bid : Option Nat),
    (transform_image i bid).w = 24 ∧ (transform_image i bid).h = 12 ∧
    (transform_image_side i bid).w = 12 ∧ (transform_image_side i bid).h = 18 ∧
    transform_image i bid =
      affineWarp 24 12
        (if bid = some 81 ∨ bid = some 92 then resize 15 15 i else resize 17 17 i) := by
  intro i bid
  refine ⟨rfl, rfl, rfl, rfl, ?_⟩
  unfold transform_image
  split <;> rfl

/-- Claim C9: the spruce-sapling variant equals the default sapling
variant — the `data == 1` tile assignment is overwritten by the `else`
attached to the `data == 2` test — and both are built from tile 15. -/
theorem C9_sapling_spruce :
    generate_special_texture 6 1 = generate_special_texture 6 0 ∧
    generate_special_texture 6 0 =
      finish (_build_block (terrain 15) (some (terrain 15)) (some 6)) := by
  constructor
  · have h1 : generate_special_texture 6 1 = gen_saplings 6 1 := rfl
    have h0 : generate_special_texture 6 0 = gen_saplings 6 0 := rfl
    rw [h1, h0]
    rfl
  · have h0 : generate_special_texture 6 0 = gen_saplings 6 0 := rfl
    rw [h0]
    rfl

/-- Claim C10: after `load_water`, the entries for kinds 8, 9 and 10 store
the full RGBA sprite as their second component, entry 11 is the very entry
of 10, the full sprite differs from its alpha band, and every other
present entry stores a separated alpha band as its second component. -/
theorem C10_water_entries :
    blockmap.getD 8 none = some (convRGB w2, w2) ∧
    blockmap.getD 9 none = some (convRGB w1, w1) ∧
    blockmap.getD 10 none = some (convRGB lavablock, lavablock) ∧
    blockmap.getD 11 none = blockmap.getD 10 none ∧
    getpixel w2 0 0 ≠ getpixel (alphaBand w2) 0 0 ∧
    (∀ i pr, i ≠ 8 → i ≠ 9 → i ≠ 10 → i ≠ 11 → blockmap.getD i none = some pr →
      ∃ img0, pr = (convRGB img0, alphaBand img0)) := by
  refine ⟨rfl, rfl, rfl, rfl, by decide, ?_⟩
  intro i pr h8 h9 h10 h11 hpr
  have hred : blockmap.getD i none = _build_blockimages.getD i none := by
    unfold blockmap
    simp only [List.getD_eq_getElem?_getD, List.getElem?_set_ne (Ne.symm h11),
      List.getElem?_set_ne (Ne.symm h10), List.getElem?_set_ne (Ne.symm h8),
      List.getElem?_set_ne (Ne.symm h9)]
  rw [hred, List.getD_eq_getElem?_getD] at hpr
  cases hmem : _build_blockimages[i]? with
  | none => rw [hmem] at hpr; simp at hpr
  | some v =>
    rw [hmem] at hpr
    simp only [Option.getD_some] at hpr
    subst hpr
    have hv := List.getElem?_mem hmem
    rcases blockimages_entry_shape _ hv with hn | ⟨img0, himg⟩
    · simp at hn
    · exact ⟨img0, Option.some.inj himg⟩

/-- Claim C10 witness: the ordinary entry for kind 1 (stone) stores a
separated alpha band as its second component. -/
theorem C10_water_entries_witness : ∃ img0,
    ((convRGB (_build_block (terrain 1) (some (terrain 1)) (some 1)),
      alphaBand (_build_block (terrain 1) (some (terrain 1)) (some 1))) : Img × Img) =
      (convRGB img0, alphaBand img0) :=
  C10_water_entries.2.2.2.2.2 1 _ (by decide) (by decide) (by decide) (by decide) rfl
